import Mathlib

/-!
# Verification of `app/dependencies.py` (wra-supervision)

Shallow embedding of the request-scoped dependency layer:

* `parse_book_input` — input normalisation from form field or raw body;
* `get_book` — generator-based resource binding (`xw.Book` acquire,
  `book.close()` in a `finally` block);
* `authenticate` — provider resolution from `settings.auth_providers` and the
  optional `Auth-Provider` header, defensive re-validation, dynamic dispatch to
  `app.auth.<provider>.validate_token` with translation of
  `ModuleNotFoundError` / `AttributeError` into an HTTP 500;
* `get_user` — IP-address enrichment, role check and custom authorization.

Python exceptions are modelled with `Except` / explicit outcome inductives;
side effects that the properties talk about (body reads, module lookups,
`logger` calls, acquire/release counts) are recorded in explicit trace
structures.  Quoted text in log/detail strings keeps the source wording with
the surrounding quote characters elided.
-/

deriving instance DecidableEq for Except

namespace WraSupervision

/-- Error taxonomy of the layer.  The `HTTPException`s raised in
`app/dependencies.py` are represented structurally (constructor arguments are
the data interpolated into the Python detail string); `invalidProviderState`
is the plain `ValueError` of the defensive re-check, and `providerFailure`
is any non-translated exception propagating out of a provider's
`validate_token`. -/
inductive AppError where
  | missingInput
  | malformedInput (msg : String)
  | ambiguousProvider
  | unknownProvider
  | providerImplementationMissing (provider : String)
  | insufficientRole (name : String) (missing : List String)
  | notAuthorized
  | invalidProviderState (provider : String)
  | providerFailure (msg : String)
deriving DecidableEq, Repr

/-- HTTP status code carried by the corresponding `HTTPException` in the
source; `none` for the two errors that are not raised as `HTTPException`. -/
def statusOf : AppError → Option Nat
  | AppError.missingInput => some 400
  | AppError.malformedInput _ => none
  | AppError.ambiguousProvider => some 400
  | AppError.unknownProvider => some 400
  | AppError.providerImplementationMissing _ => some 500
  | AppError.insufficientRole _ _ => some 403
  | AppError.notAuthorized => some 403
  | AppError.invalidProviderState _ => none
  | AppError.providerFailure _ => none

/-- Python truthiness of an optional string (`if form_data:`,
`not auth_provider`): `None` and the empty string are falsy. -/
def strTruthy : Option String → Bool
  | none => false
  | some s => s != ""

/-! ## Input Normalizer: `parse_book_input` -/

/-- Result of `parse_book_input` together with the number of times the raw
request body was read (`await request.body()`). -/
structure ParseTrace (Doc : Type) where
  bodyReads : Nat
  result : Except AppError Doc
deriving Repr

/-- Embedding of `parse_book_input`.  `parseJson` stands for `json.loads`
(failures are `json.JSONDecodeError`, which the source propagates unchanged —
modelled as `AppError.malformedInput`).  `body_bytes` is the raw body after
UTF-8 decoding; Python truthiness of `bytes` corresponds to `!= ""`. -/
def parse_book_input {Doc : Type} (parseJson : String → Except String Doc)
    (form_data : Option String) (body_bytes : String) : ParseTrace Doc :=
  if strTruthy form_data then
    { bodyReads := 0
      result := (parseJson (form_data.getD "")).mapError AppError.malformedInput }
  else if body_bytes != "" then
    { bodyReads := 1
      result := (parseJson body_bytes).mapError AppError.malformedInput }
  else
    { bodyReads := 1, result := Except.error AppError.missingInput }

/-! ## Resource Binder: `get_book` -/

/-- Outcome of running the request handler while it holds the book: normal
return, an exception, or cancellation of the request after acquisition. -/
inductive Outcome (α : Type) where
  | ok (a : α)
  | exn (msg : String)
  | cancelled
deriving DecidableEq, Repr

/-- Trace of one run of the `get_book` dependency: number of `xw.Book`
constructions that succeeded, number of `book.close()` invocations, messages
logged by this function, and the final outcome of the request after the
`finally` block ran. -/
structure BookTrace (α : Type) where
  acquires : Nat
  releases : Nat
  logs : List String
  outcome : Outcome α
deriving Repr

/-- Embedding of `get_book`:

```
book = xw.Book(json=book_data)
try:
    yield book
finally:
    book.close()
```

`xwBook` models the `xw.Book` constructor (which may raise), `close` models
`book.close()` (which may raise), and `handler` is the handler body running
at the `yield` point.  Per Python semantics an exception raised inside the
`finally` block replaces whatever outcome (return value, exception or
`CancelledError`) was in flight. -/
def get_book {Doc Book α : Type} (xwBook : Doc → Except String Book)
    (close : Book → Except String Unit)
    (handler : Book → Outcome α) (book_data : Doc) : BookTrace α :=
  match xwBook book_data with
  | Except.error e => { acquires := 0, releases := 0, logs := [], outcome := Outcome.exn e }
  | Except.ok book =>
    let res := handler book
    match close book with
    | Except.ok _ => { acquires := 1, releases := 1, logs := [], outcome := res }
    | Except.error e => { acquires := 1, releases := 1, logs := [], outcome := Outcome.exn e }

/-! ## Principal -/

/-- Modelled from the spec: `models.User` lives outside `src/`.  The spec's
Principal is "identity + authorization state: opaque identifier, display
name, set of role labels, origin network address (nullable), plus
provider-specific extension data"; the custom-authorization extension point
(`is_authorized`) is modelled by the boolean outcome it would return. -/
structure User where
  id : String
  name : String
  roles : List String
  ip_address : Option String
  authorized : Bool
deriving DecidableEq, Repr

/-- The fixed anonymous principal `User(id="n/a", name="Anonymous")` returned
when no auth providers are configured; remaining fields take the model's
defaults (no roles, no address, custom authorization passing). -/
def anonymousUser : User :=
  { id := "n/a", name := "Anonymous", roles := [], ip_address := none, authorized := true }

/-- Modelled from the spec: `models.User.has_required_roles` is outside
`src/`; the spec's Access Controller computes
"missing-roles = required-roles − principal.roles" and fails iff it is
non-empty, i.e. the check passes iff every required role is held. -/
def has_required_roles (u : User) (required : List String) : Bool :=
  required.all (fun r => u.roles.contains r)

/-- The missing roles enumerated in the `InsufficientRole` detail:
`set(settings.auth_required_roles).difference(current_user.roles)`
(a set, hence deduplicated). -/
def missingRoles (required roles : List String) : List String :=
  (required.filter (fun r => !(roles.contains r))).dedup

/-! ## Provider Resolver and Token Validator dispatch: `authenticate` -/

/-- Outcome of the provider-resolution `if`/`elif` chain of `authenticate`
(source lines 51–66), before the defensive re-check and the dispatch. -/
inductive Resolution where
  | anonymous
  | selected (provider : String)
  | ambiguous
  | unknownHint
deriving DecidableEq, Repr

/-- Embedding of the resolution chain of `authenticate`:

```
if not settings.auth_providers:        return User(id="n/a", name="Anonymous")
if len(settings.auth_providers) == 1:  provider = settings.auth_providers[0]
elif len(...) > 1 and not auth_provider:            raise 400 (ambiguous)
elif auth_provider not in settings.auth_providers:  raise 400 (unknown)
else:                                  provider = auth_provider
```

`auth_provider` is the optional `Auth-Provider` header (absent → `none`). -/
def resolveProvider (auth_providers : List String) (auth_provider : Option String) :
    Resolution :=
  if auth_providers.isEmpty then
    Resolution.anonymous
  else if auth_providers.length == 1 then
    Resolution.selected (auth_providers.headD "")
  else if decide (auth_providers.length > 1) && !(strTruthy auth_provider) then
    Resolution.ambiguous
  else if !(match auth_provider with
            | none => false
            | some s => auth_providers.contains s) then
    Resolution.unknownHint
  else
    Resolution.selected (auth_provider.getD "")

/-- One failure of a provider's `validate_token` coroutine, by exception
class: the two classes caught by the source's `except` clause, and anything
else. -/
inductive AuthFailure where
  | attributeError (msg : String)
  | moduleNotFoundError (msg : String)
  | otherFailure (msg : String)
deriving DecidableEq, Repr

/-- A loadable provider module `app.auth.<provider>`; `validate_token = none`
models a module that does not implement the contract, so that accessing the
attribute raises `AttributeError`. -/
structure ProviderModule where
  validate_token : Option (String → Except AuthFailure User)

/-- The message of `logger.exception` and of the HTTP 500 detail in
`authenticate` (quotes around the provider name elided). -/
def implMissingLog (provider : String) : String :=
  "Auth provider " ++ provider ++ " implementation missing."

/-- Trace of one run of `authenticate`: `logger` messages, the provider
names looked up via `importlib.import_module` (the providers actually
invoked), and the result. -/
structure AuthTrace where
  logs : List String
  lookups : List String
  result : Except AppError User
deriving DecidableEq, Repr

/-- Embedding of `authenticate` (source lines 47–79): provider resolution,
`logger.info`, the defensive membership re-check raising `ValueError`, then
`importlib.import_module("app.auth." + provider)` and
`await module.validate_token(token_string)` inside
`except (AttributeError, ModuleNotFoundError)`, which logs and translates to
an HTTP 500; any other exception from `validate_token` propagates as-is.
`modules` maps a provider name to its loadable module, `none` meaning
`ModuleNotFoundError` on import. -/
def authenticate (modules : String → Option ProviderModule)
    (auth_providers : List String) (token_string : String)
    (auth_provider : Option String) : AuthTrace :=
  match resolveProvider auth_providers auth_provider with
  | Resolution.anonymous =>
    { logs := [], lookups := [], result := Except.ok anonymousUser }
  | Resolution.ambiguous =>
    { logs := [], lookups := [], result := Except.error AppError.ambiguousProvider }
  | Resolution.unknownHint =>
    { logs := [], lookups := [], result := Except.error AppError.unknownProvider }
  | Resolution.selected provider =>
    let logs0 := ["Using auth provider " ++ provider]
    if !(auth_providers.contains provider) then
      { logs := logs0, lookups := []
        result := Except.error (AppError.invalidProviderState provider) }
    else
      match modules provider with
      | none =>
        { logs := logs0 ++ [implMissingLog provider], lookups := [provider]
          result := Except.error (AppError.providerImplementationMissing provider) }
      | some m =>
        match m.validate_token with
        | none =>
          { logs := logs0 ++ [implMissingLog provider], lookups := [provider]
            result := Except.error (AppError.providerImplementationMissing provider) }
        | some validate =>
          match validate token_string with
          | Except.ok u =>
            { logs := logs0, lookups := [provider], result := Except.ok u }
          | Except.error (AuthFailure.attributeError _) =>
            { logs := logs0 ++ [implMissingLog provider], lookups := [provider]
              result := Except.error (AppError.providerImplementationMissing provider) }
          | Except.error (AuthFailure.moduleNotFoundError _) =>
            { logs := logs0 ++ [implMissingLog provider], lookups := [provider]
              result := Except.error (AppError.providerImplementationMissing provider) }
          | Except.error (AuthFailure.otherFailure msg) =>
            { logs := logs0, lookups := [provider]
              result := Except.error (AppError.providerFailure msg) }

/-! ## Principal Enricher and Access Controller: `get_user` -/

/-- Python's `s.split(",")[0]`: the characters before the first comma. -/
def takeUntilComma : List Char → List Char
  | [] => []
  | c :: cs => if c = ',' then [] else c :: takeUntilComma cs

/-- Python's `str.strip()`: drop leading and trailing whitespace. -/
def pyStrip (l : List Char) : List Char :=
  ((l.dropWhile Char.isWhitespace).reverse.dropWhile Char.isWhitespace).reverse

/-- Embedding of the IP extraction of `get_user`: the first comma-separated
entry of the `x-forwarded-for` header, stripped, when the header is present
(`xff`); otherwise `request.client.host` when `request.client` is set
(`clientHost`); otherwise `None`. -/
def extractIp (xff : Option String) (clientHost : Option String) : Option String :=
  match xff with
  | some v => some (String.mk (pyStrip (takeUntilComma v.data)))
  | none => clientHost

/-- The enrichment step `current_user.ip_address = ip_address`: the only
field written is `ip_address`. -/
def enrich (u : User) (xff : Option String) (clientHost : Option String) : User :=
  { u with ip_address := extractIp xff clientHost }

/-- Trace of one run of `get_user`: how many role-membership checks
(`has_required_roles`) and custom-authorization checks (`is_authorized`)
were awaited, and the result. -/
structure GetUserTrace where
  roleChecks : Nat
  authChecks : Nat
  result : Except AppError User
deriving DecidableEq, Repr

/-- Embedding of `get_user` (source lines 83–107): IP enrichment, the
anonymous-mode early return when no providers are configured, the RBAC check
raising 403 with the missing roles and the display name, then the custom
authorization check raising a generic 403. -/
def get_user (auth_providers auth_required_roles : List String)
    (xff clientHost : Option String) (current_user : User) : GetUserTrace :=
  let u := enrich current_user xff clientHost
  if auth_providers.isEmpty then
    { roleChecks := 0, authChecks := 0, result := Except.ok u }
  else if !(has_required_roles u auth_required_roles) then
    { roleChecks := 1, authChecks := 0
      result := Except.error
        (AppError.insufficientRole u.name (missingRoles auth_required_roles u.roles)) }
  else if !u.authorized then
    { roleChecks := 1, authChecks := 1, result := Except.error AppError.notAuthorized }
  else
    { roleChecks := 1, authChecks := 1, result := Except.ok u }

/-! ## Request admission pipeline -/

/-- Trace of a whole request through the admission pipeline. -/
structure PipelineTrace (α : Type) where
  acquires : Nat
  releases : Nat
  failed : Option AppError
deriving Repr

/-- Modelled from the spec: the route-level dependency composition is outside
`src/` (FastAPI solves `Depends` at the endpoints); the spec fixes the order
"normalization → (provider resolution → validation → enrichment →
authorization) → resource acquisition → handler → resource release", each
step starting only after its predecessor succeeded. -/
def requestPipeline {Doc Book α : Type} (parseJson : String → Except String Doc)
    (modules : String → Option ProviderModule)
    (auth_providers auth_required_roles : List String)
    (xwBook : Doc → Except String Book) (close : Book → Except String Unit)
    (handler : User → Book → Outcome α)
    (form_data : Option String) (body_bytes : String)
    (token_string : String) (auth_provider : Option String)
    (xff clientHost : Option String) : PipelineTrace α :=
  match (parse_book_input parseJson form_data body_bytes).result with
  | Except.error e => { acquires := 0, releases := 0, failed := some e }
  | Except.ok doc =>
    match (authenticate modules auth_providers token_string auth_provider).result with
    | Except.error e => { acquires := 0, releases := 0, failed := some e }
    | Except.ok u0 =>
      match (get_user auth_providers auth_required_roles xff clientHost u0).result with
      | Except.error e => { acquires := 0, releases := 0, failed := some e }
      | Except.ok u =>
        let t := get_book xwBook close (handler u) doc
        { acquires := t.acquires, releases := t.releases, failed := none }

/-! ## Shared helper lemmas -/

theorem contains_iff_mem {l : List String} {a : String} :
    l.contains a = true ↔ a ∈ l :=
  List.elem_iff

/-- A provider selected by the resolution chain is always a member of the
configured provider list. -/
theorem resolveProvider_selected_mem {providers : List String} {hint : Option String}
    {p : String} (h : resolveProvider providers hint = Resolution.selected p) :
    p ∈ providers := by
  unfold resolveProvider at h
  split_ifs at h with h0 h1 h2 h3
  · cases providers with
    | nil => simp at h0
    | cons x xs =>
      injection h with h
      rw [← h]
      exact List.mem_cons_self x xs
  · injection h with h
    cases hhint : hint with
    | none => rw [hhint] at h3; simp at h3
    | some s =>
      rw [hhint] at h3 h
      have hc : providers.contains s = true := by simpa using h3
      have hs : s = p := by simpa using h
      rw [← hs]
      exact contains_iff_mem.mp hc

/-- Enrichment does not change the role set or the display name. -/
theorem enrich_fields (u : User) (xff clientHost : Option String) :
    (enrich u xff clientHost).id = u.id ∧ (enrich u xff clientHost).name = u.name ∧
    (enrich u xff clientHost).roles = u.roles ∧
    (enrich u xff clientHost).authorized = u.authorized :=
  ⟨rfl, rfl, rfl, rfl⟩

/-! ## C1: resource release on every exit path -/

/-- C1: for every request in which a ResourceHandle is acquired by
`get_book` (the `xw.Book` constructor returned a book), `book.close()` is
invoked exactly once, whatever the handler does at the `yield` point —
normal completion, a raised exception, or cancellation are all covered
because the statement quantifies over every `handler : Book → Outcome α`. -/
theorem get_book_releases_once {Doc Book α : Type}
    (xwBook : Doc → Except String Book) (close : Book → Except String Unit)
    (handler : Book → Outcome α) (book_data : Doc) (b : Book)
    (hacq : xwBook book_data = Except.ok b) :
    (get_book xwBook close handler book_data).acquires = 1 ∧
    (get_book xwBook close handler book_data).releases = 1 := by
  unfold get_book
  rw [hacq]
  cases hcb : close b <;> simp [hcb]

/-- Witness for C1: one concrete run per exit path (normal completion,
handler exception, cancellation), each acquiring once and releasing once. -/
theorem get_book_releases_once_witness :
    (get_book (fun _ : Nat => Except.ok 0) (fun _ => Except.ok ())
      (fun _ => Outcome.ok 1) 5).releases = 1 ∧
    (get_book (fun _ : Nat => Except.ok 0) (fun _ => Except.ok ())
      (fun _ : Nat => (Outcome.exn "boom" : Outcome Nat)) 5).releases = 1 ∧
    (get_book (fun _ : Nat => Except.ok 0) (fun _ => Except.ok ())
      (fun _ : Nat => (Outcome.cancelled : Outcome Nat)) 5).releases = 1 :=
  ⟨(get_book_releases_once (fun _ : Nat => Except.ok 0) (fun _ => Except.ok ())
      (fun _ => Outcome.ok 1) 5 0 rfl).2,
   (get_book_releases_once (fun _ : Nat => Except.ok 0) (fun _ => Except.ok ())
      (fun _ : Nat => (Outcome.exn "boom" : Outcome Nat)) 5 0 rfl).2,
   (get_book_releases_once (fun _ : Nat => Except.ok 0) (fun _ => Except.ok ())
      (fun _ : Nat => (Outcome.cancelled : Outcome Nat)) 5 0 rfl).2⟩

/-! ## C3: behaviour when `book.close()` itself fails -/

/-- The claim, as stated: if the handler completes successfully but the
release fails, the release failure is logged and the successful handler
result is preserved. -/
def releaseFailureContained {Doc Book α : Type} (xwBook : Doc → Except String Book)
    (close : Book → Except String Unit) (handler : Book → Outcome α)
    (book_data : Doc) : Prop :=
  ∀ (b : Book) (a : α) (e : String),
    xwBook book_data = Except.ok b → handler b = Outcome.ok a →
    close b = Except.error e →
    (get_book xwBook close handler book_data).outcome = Outcome.ok a ∧
    (get_book xwBook close handler book_data).logs ≠ []

/-- Counterexample for C3: a run whose handler returns normally and whose
`close` fails; `get_book` logs nothing and the close failure replaces the
successful outcome (an exception raised in a `finally` block propagates). -/
theorem get_book_close_failure_cex :
    ¬ releaseFailureContained (fun _ : Unit => Except.ok ())
        (fun _ => Except.error "close failed") (fun _ => Outcome.ok (0 : Nat)) () := by
  intro h
  have hc := h () 0 "close failed" rfl rfl rfl
  exact absurd hc.1 (by decide)

/-- C3 amended: `get_book` neither catches nor logs a failure of
`book.close()`; the close is still invoked exactly once, but its failure
propagates out of the `finally` block and replaces the successful handler
outcome, and nothing is logged by this function. -/
theorem get_book_close_failure_propagates {Doc Book α : Type}
    (xwBook : Doc → Except String Book) (close : Book → Except String Unit)
    (handler : Book → Outcome α) (book_data : Doc) (b : Book) (a : α) (e : String)
    (hacq : xwBook book_data = Except.ok b) (_hh : handler b = Outcome.ok a)
    (hc : close b = Except.error e) :
    get_book xwBook close handler book_data
      = { acquires := 1, releases := 1, logs := [], outcome := Outcome.exn e } := by
  unfold get_book
  rw [hacq]
  simp only [hc]

/-- Witness for the amended C3 at a concrete run. -/
theorem get_book_close_failure_propagates_witness :
    get_book (fun _ : Unit => Except.ok ()) (fun _ => Except.error "close failed")
        (fun _ => Outcome.ok (0 : Nat)) ()
      = { acquires := 1, releases := 1, logs := [], outcome := Outcome.exn "close failed" } :=
  get_book_close_failure_propagates (fun _ : Unit => Except.ok ())
    (fun _ => Except.error "close failed") (fun _ => Outcome.ok (0 : Nat)) ()
    () 0 "close failed" rfl rfl rfl

/-! ## C4: input-source precedence in `parse_book_input` -/

/-- C4: `parse_book_input` consults exactly one source.  A truthy form field
is parsed with the body never read; otherwise the body is read exactly once
and parsed when non-empty; when neither source yields content the result is
`MissingInput`, an HTTP 400. -/
theorem parse_book_input_spec {Doc : Type} (parseJson : String → Except String Doc)
    (form_data : Option String) (body_bytes : String) :
    (strTruthy form_data = true →
      (parse_book_input parseJson form_data body_bytes).bodyReads = 0 ∧
      (parse_book_input parseJson form_data body_bytes).result
        = (parseJson (form_data.getD "")).mapError AppError.malformedInput) ∧
    (strTruthy form_data = false →
      (parse_book_input parseJson form_data body_bytes).bodyReads = 1 ∧
      (body_bytes ≠ "" →
        (parse_book_input parseJson form_data body_bytes).result
          = (parseJson body_bytes).mapError AppError.malformedInput) ∧
      (body_bytes = "" →
        (parse_book_input parseJson form_data body_bytes).result
          = Except.error AppError.missingInput)) ∧
    (parse_book_input parseJson form_data body_bytes).bodyReads ≤ 1 ∧
    statusOf AppError.missingInput = some 400 := by
  by_cases hf : strTruthy form_data = true
  · refine ⟨fun _ => ⟨?_, ?_⟩, fun hff => absurd hf (by simp [hff]), ?_, rfl⟩ <;>
      simp [parse_book_input, hf]
  · have hf' : strTruthy form_data = false := by simpa using hf
    by_cases hb : body_bytes = ""
    · refine ⟨fun hft => absurd hft hf, fun _ => ⟨?_, fun hbn => absurd hb hbn, fun _ => ?_⟩, ?_, rfl⟩ <;>
        simp [parse_book_input, hf', hb]
    · refine ⟨fun hft => absurd hft hf, fun _ => ⟨?_, fun _ => ?_, fun hbe => absurd hbe hb⟩, ?_, rfl⟩ <;>
        simp [parse_book_input, hf', hb]

/-- Witness for C4: with a populated form field the body is never read; with
neither source populated the result is `MissingInput`. -/
theorem parse_book_input_spec_witness :
    (parse_book_input (fun s => Except.ok s) (some "x") "ignored").bodyReads = 0 ∧
    (parse_book_input (fun s => Except.ok s) none "").result
      = Except.error AppError.missingInput :=
  ⟨((parse_book_input_spec (fun s => Except.ok s) (some "x") "ignored").1 rfl).1,
   (((parse_book_input_spec (fun s => Except.ok s) none "").2.1 rfl).2.2 rfl)⟩

/-- Every provider name looked up by `authenticate` (hence every provider
invoked) is the resolved provider. -/
theorem authenticate_lookups_selected (modules : String → Option ProviderModule)
    (providers : List String) (token : String) (hint : Option String) (p : String)
    (hres : resolveProvider providers hint = Resolution.selected p) :
    ∀ q ∈ (authenticate modules providers token hint).lookups, q = p := by
  have hc : providers.contains p = true :=
    contains_iff_mem.mpr (resolveProvider_selected_mem hres)
  unfold authenticate
  rw [hres]
  simp only [hc, Bool.not_true]
  cases hm : modules p with
  | none => simp
  | some m =>
    cases hv : m.validate_token with
    | none => simp [hv]
    | some v =>
      cases hr : v token with
      | ok u => simp [hv, hr]
      | error f => cases f <;> simp [hv, hr]

/-! ## C2: provider resolution policy -/

/-- C2 as stated: for a non-empty configured provider set, a single
configured provider is selected unconditionally; with several providers an
absent hint yields `AmbiguousProvider`, a hint that is no configured name
yields `UnknownProvider`, and otherwise the hinted provider is selected. -/
def claimProviderResolution (providers : List String) (hint : Option String) : Prop :=
  providers ≠ [] →
    (providers.length = 1 →
      resolveProvider providers hint = Resolution.selected (providers.headD "")) ∧
    (providers.length > 1 →
      (hint = none → resolveProvider providers hint = Resolution.ambiguous) ∧
      (∀ s, hint = some s → s ∉ providers →
        resolveProvider providers hint = Resolution.unknownHint) ∧
      (∀ s, hint = some s → s ∈ providers →
        resolveProvider providers hint = Resolution.selected s))

/-- Counterexample for C2: with two configured providers and a present but
empty `Auth-Provider` header — a supplied hint that matches no configured
name — the source raises `AmbiguousProvider` (the ambiguity branch tests
Python truthiness, `not auth_provider`), not `UnknownProvider` as the claim
requires. -/
theorem resolveProvider_empty_hint_cex :
    ¬ claimProviderResolution ["okta", "azuread"] (some "") := by
  intro h
  have h2 := ((h (by decide)).2 (by decide)).2.1 "" rfl (by decide)
  exact absurd h2 (by decide)

/-- C2 amended: as the claim states it, except that a present-but-empty hint
is treated as an absent hint (both are falsy to `not auth_provider`): with
several providers it yields `AmbiguousProvider`, and the `UnknownProvider` /
selection branches require a non-empty hint.  The selected provider is the
only one whose module is ever looked up. -/
theorem resolveProvider_spec (providers : List String) (hint : Option String)
    (hne : providers ≠ []) :
    (providers.length = 1 →
      resolveProvider providers hint = Resolution.selected (providers.headD "")) ∧
    (providers.length > 1 → strTruthy hint = false →
      resolveProvider providers hint = Resolution.ambiguous ∧
      statusOf AppError.ambiguousProvider = some 400) ∧
    (∀ s, providers.length > 1 → hint = some s → s ≠ "" → s ∉ providers →
      resolveProvider providers hint = Resolution.unknownHint ∧
      statusOf AppError.unknownProvider = some 400) ∧
    (∀ s, providers.length > 1 → hint = some s → s ≠ "" → s ∈ providers →
      resolveProvider providers hint = Resolution.selected s ∧
      ∀ modules token q,
        q ∈ (authenticate modules providers token hint).lookups → q = s) := by
  have hemp : providers.isEmpty = false := List.isEmpty_eq_false.mpr hne
  refine ⟨fun hlen1 => ?_, fun hgt hfalsy => ⟨?_, rfl⟩, fun s hgt hs hsne hsnm => ⟨?_, rfl⟩,
    fun s hgt hs hsne hsm => ⟨?_, ?_⟩⟩
  · simp [resolveProvider, hemp, hlen1]
  · have hne1 : providers.length ≠ 1 := by omega
    simp [resolveProvider, hemp, hne1, hgt, hfalsy]
  · have hne1 : providers.length ≠ 1 := by omega
    simp [resolveProvider, hemp, hne1, hgt, hs, strTruthy, hsne, hsnm]
  · have hne1 : providers.length ≠ 1 := by omega
    simp [resolveProvider, hemp, hne1, hgt, hs, strTruthy, hsne, hsm]
  · intro modules token q hq
    refine authenticate_lookups_selected modules providers token hint s ?_ q hq
    have hne1 : providers.length ≠ 1 := by omega
    simp [resolveProvider, hemp, hne1, hgt, hs, strTruthy, hsne, hsm]

/-- Witness for the amended C2: concrete two-provider configurations with an
absent hint, an unknown non-empty hint, and a matching hint. -/
theorem resolveProvider_spec_witness :
    resolveProvider ["okta", "azuread"] none = Resolution.ambiguous ∧
    resolveProvider ["okta", "azuread"] (some "github") = Resolution.unknownHint ∧
    resolveProvider ["okta", "azuread"] (some "azuread") = Resolution.selected "azuread" ∧
    resolveProvider ["okta"] (some "github") = Resolution.selected "okta" :=
  ⟨(((resolveProvider_spec ["okta", "azuread"] none (by decide)).2.1 (by decide) rfl)).1,
   ((resolveProvider_spec ["okta", "azuread"] (some "github") (by decide)).2.2.1 "github"
      (by decide) rfl (by decide) (by decide)).1,
   ((resolveProvider_spec ["okta", "azuread"] (some "azuread") (by decide)).2.2.2 "azuread"
      (by decide) rfl (by decide) (by decide)).1,
   (resolveProvider_spec ["okta"] (some "github") (by decide)).1 rfl⟩

/-! ## C10: the defensive `ValueError` re-check is unreachable -/

/-- C10: for every configuration, hint, token and provider-module table,
`authenticate` never raises the defensive
`ValueError("Unsupported authentication provider")`: every path assigning
the selected provider takes it from `settings.auth_providers` or has already
verified membership, so the re-check before dispatch always passes. -/
theorem authenticate_no_invalid_state (modules : String → Option ProviderModule)
    (providers : List String) (token : String) (hint : Option String) (p : String) :
    (authenticate modules providers token hint).result
      ≠ Except.error (AppError.invalidProviderState p) := by
  intro hcontra
  unfold authenticate at hcontra
  cases hres : resolveProvider providers hint with
  | anonymous => rw [hres] at hcontra; simp at hcontra
  | ambiguous => rw [hres] at hcontra; simp at hcontra
  | unknownHint => rw [hres] at hcontra; simp at hcontra
  | selected q =>
    have hq : q ∈ providers := resolveProvider_selected_mem hres
    cases hm : modules q with
    | none => simp [hres, hq, hm] at hcontra
    | some m =>
      cases hv : m.validate_token with
      | none => simp [hres, hq, hm, hv] at hcontra
      | some v =>
        cases hr : v token with
        | ok u => simp [hres, hq, hm, hv, hr] at hcontra
        | error f => cases f <;> simp [hres, hq, hm, hv, hr] at hcontra

/-- Witness for C10 at a concrete configuration and module table. -/
theorem authenticate_no_invalid_state_witness :
    (authenticate (fun _ => some { validate_token := none }) ["okta"] "tok"
        (some "x")).result
      ≠ Except.error (AppError.invalidProviderState "okta") :=
  authenticate_no_invalid_state (fun _ => some { validate_token := none })
    ["okta"] "tok" (some "x") "okta"

/-! ## C5: exception translation around provider dispatch -/

/-- C5: once a provider has been resolved, exactly the failure shapes
`ModuleNotFoundError` (provider module absent — on import or inside the
provider) and `AttributeError` (provider does not implement
`validate_token` — on attribute access or inside the provider) are
translated into the single `ProviderImplementationMissing` HTTP 500, with
the diagnostic `logger.exception` entry emitted; any other failure of
`validate_token` propagates as-is, with no translation log and no
swallowing, and a successful validation passes the principal through. -/
theorem authenticate_translation_spec (modules : String → Option ProviderModule)
    (providers : List String) (token : String) (hint : Option String) (p : String)
    (hres : resolveProvider providers hint = Resolution.selected p) :
    (modules p = none →
      authenticate modules providers token hint
        = { logs := ["Using auth provider " ++ p, implMissingLog p], lookups := [p],
            result := Except.error (AppError.providerImplementationMissing p) }) ∧
    (∀ m, modules p = some m → m.validate_token = none →
      authenticate modules providers token hint
        = { logs := ["Using auth provider " ++ p, implMissingLog p], lookups := [p],
            result := Except.error (AppError.providerImplementationMissing p) }) ∧
    (∀ m v msg, modules p = some m → m.validate_token = some v →
      (v token = Except.error (AuthFailure.attributeError msg) ∨
       v token = Except.error (AuthFailure.moduleNotFoundError msg)) →
      authenticate modules providers token hint
        = { logs := ["Using auth provider " ++ p, implMissingLog p], lookups := [p],
            result := Except.error (AppError.providerImplementationMissing p) }) ∧
    (∀ m v msg, modules p = some m → m.validate_token = some v →
      v token = Except.error (AuthFailure.otherFailure msg) →
      authenticate modules providers token hint
        = { logs := ["Using auth provider " ++ p], lookups := [p],
            result := Except.error (AppError.providerFailure msg) }) ∧
    (∀ m v u, modules p = some m → m.validate_token = some v → v token = Except.ok u →
      authenticate modules providers token hint
        = { logs := ["Using auth provider " ++ p], lookups := [p],
            result := Except.ok u }) ∧
    statusOf (AppError.providerImplementationMissing p) = some 500 := by
  have hq : p ∈ providers := resolveProvider_selected_mem hres
  refine ⟨fun hm => ?_, fun m hm hv => ?_, fun m v msg hm hv hr => ?_,
    fun m v msg hm hv hr => ?_, fun m v u hm hv hr => ?_, rfl⟩
  · simp [authenticate, hres, hq, hm, implMissingLog]
  · simp [authenticate, hres, hq, hm, hv, implMissingLog]
  · rcases hr with hr | hr <;> simp [authenticate, hres, hq, hm, hv, hr, implMissingLog]
  · simp [authenticate, hres, hq, hm, hv, hr]
  · simp [authenticate, hres, hq, hm, hv, hr]

/-- Witness for C5: a configured provider whose module is absent yields the
translated 500 with the diagnostic log; a provider failure of another shape
propagates untranslated. -/
theorem authenticate_translation_spec_witness :
    authenticate (fun _ => none) ["okta"] "tok" none
      = { logs := ["Using auth provider " ++ "okta", implMissingLog "okta"],
          lookups := ["okta"],
          result := Except.error (AppError.providerImplementationMissing "okta") } ∧
    authenticate
        (fun _ => some
          { validate_token := some (fun _ => Except.error (AuthFailure.otherFailure "bad token")) })
        ["okta"] "tok" none
      = { logs := ["Using auth provider " ++ "okta"], lookups := ["okta"],
          result := Except.error (AppError.providerFailure "bad token") } :=
  ⟨(authenticate_translation_spec (fun _ => none) ["okta"] "tok" none "okta"
      (by decide)).1 rfl,
   (authenticate_translation_spec
      (fun _ => some
        { validate_token := some (fun _ => Except.error (AuthFailure.otherFailure "bad token")) })
      ["okta"] "tok" none "okta" (by decide)).2.2.2.1
      { validate_token := some (fun _ => Except.error (AuthFailure.otherFailure "bad token")) }
      (fun _ => Except.error (AuthFailure.otherFailure "bad token")) "bad token" rfl rfl rfl⟩

/-! ## C6: missing-role enumeration in `get_user` -/

/-- C6 as stated: whenever some required role is missing from the principal,
`get_user` fails with `InsufficientRole` whose detail carries the display
name and exactly the missing roles. -/
def claimInsufficientRole (providers required : List String)
    (xff clientHost : Option String) (u : User) : Prop :=
  (∃ r ∈ required, r ∉ u.roles) →
    (get_user providers required xff clientHost u).result
      = Except.error (AppError.insufficientRole u.name (missingRoles required u.roles))

/-- Counterexample for C6: with zero configured providers `get_user` returns
before the RBAC check, so a principal missing a required role is admitted
anyway — the claim omits the auth-enabled precondition. -/
theorem get_user_role_cex :
    ¬ claimInsufficientRole [] ["admin"] none none
        { id := "u1", name := "Alice", roles := [], ip_address := none,
          authorized := true } := by
  intro h
  have hc := h ⟨"admin", by decide, by decide⟩
  exact absurd hc (by decide)

/-- C6 amended: provided at least one auth provider is configured, whenever
the required-role set R is not contained in the principal role set P,
`get_user` fails with `InsufficientRole` (HTTP 403) whose detail carries the
principal's display name and enumerates exactly R − P. -/
theorem get_user_insufficient_role (providers required : List String)
    (xff clientHost : Option String) (u : User)
    (hne : providers ≠ []) (hmiss : ∃ r ∈ required, r ∉ u.roles) :
    (get_user providers required xff clientHost u).result
      = Except.error (AppError.insufficientRole u.name (missingRoles required u.roles)) ∧
    (∀ r, r ∈ missingRoles required u.roles ↔ (r ∈ required ∧ r ∉ u.roles)) ∧
    statusOf (AppError.insufficientRole u.name (missingRoles required u.roles))
      = some 403 := by
  have hemp : providers.isEmpty = false := List.isEmpty_eq_false.mpr hne
  obtain ⟨r, hr, hnr⟩ := hmiss
  have hroles : (enrich u xff clientHost).roles = u.roles := rfl
  have hhrr : has_required_roles (enrich u xff clientHost) required = false := by
    rw [Bool.eq_false_iff]
    intro hall
    rw [has_required_roles] at hall
    have hcr := List.all_eq_true.mp hall r hr
    rw [hroles] at hcr
    exact hnr (contains_iff_mem.mp hcr)
  refine ⟨?_, fun r2 => ?_, rfl⟩
  · simp [get_user, hemp, hhrr]
    exact ⟨rfl, rfl⟩
  · simp [missingRoles, List.mem_dedup, List.mem_filter]

/-- Witness for the amended C6: one provider configured, required roles
`admin` and `editor`, a principal holding only `editor`: the failure detail
names the principal and enumerates exactly `admin`. -/
theorem get_user_insufficient_role_witness :
    (get_user ["okta"] ["admin", "editor"] none none
        { id := "u1", name := "Alice", roles := ["editor"], ip_address := none,
          authorized := true }).result
      = Except.error (AppError.insufficientRole "Alice" ["admin"]) := by
  have h := (get_user_insufficient_role ["okta"] ["admin", "editor"] none none
      { id := "u1", name := "Alice", roles := ["editor"], ip_address := none,
        authorized := true } (by decide) ⟨"admin", by decide, by decide⟩).1
  exact h.trans (by decide)

/-! ## C7: anonymous mode -/

/-- C7: with zero configured providers, `authenticate` always succeeds with
the fixed anonymous principal (identifier `n/a`, display name `Anonymous`)
and performs no further step (no log, no module lookup), and `get_user`
performs zero role-membership checks and zero custom-authorization
checks. -/
theorem anonymous_mode_spec (modules : String → Option ProviderModule)
    (token : String) (hint : Option String) (required : List String)
    (xff clientHost : Option String) (u : User) :
    authenticate modules [] token hint
      = { logs := [], lookups := [], result := Except.ok anonymousUser } ∧
    anonymousUser.id = "n/a" ∧ anonymousUser.name = "Anonymous" ∧
    (get_user [] required xff clientHost u).roleChecks = 0 ∧
    (get_user [] required xff clientHost u).authChecks = 0 ∧
    (get_user [] required xff clientHost u).result
      = Except.ok (enrich u xff clientHost) :=
  ⟨rfl, rfl, rfl, rfl, rfl, rfl⟩

/-! ## C8: no resource acquisition after a pipeline failure -/

/-- C8: in the admission pipeline, a failure of input parsing, of
authentication (provider resolution or token validation), or of
authorization (role or custom check) terminates the request before resource
acquisition: no `xw.Book` is ever constructed for it, hence none released. -/
theorem pipeline_no_acquire_on_failure {Doc Book α : Type}
    (parseJson : String → Except String Doc) (modules : String → Option ProviderModule)
    (providers required : List String)
    (xwBook : Doc → Except String Book) (close : Book → Except String Unit)
    (handler : User → Book → Outcome α)
    (form_data : Option String) (body_bytes token : String)
    (hint xff clientHost : Option String) :
    (∀ e, (parse_book_input parseJson form_data body_bytes).result = Except.error e →
      (requestPipeline parseJson modules providers required xwBook close handler
          form_data body_bytes token hint xff clientHost).acquires = 0 ∧
      (requestPipeline parseJson modules providers required xwBook close handler
          form_data body_bytes token hint xff clientHost).releases = 0) ∧
    (∀ e, (authenticate modules providers token hint).result = Except.error e →
      (requestPipeline parseJson modules providers required xwBook close handler
          form_data body_bytes token hint xff clientHost).acquires = 0 ∧
      (requestPipeline parseJson modules providers required xwBook close handler
          form_data body_bytes token hint xff clientHost).releases = 0) ∧
    (∀ u0 e, (authenticate modules providers token hint).result = Except.ok u0 →
      (get_user providers required xff clientHost u0).result = Except.error e →
      (requestPipeline parseJson modules providers required xwBook close handler
          form_data body_bytes token hint xff clientHost).acquires = 0 ∧
      (requestPipeline parseJson modules providers required xwBook close handler
          form_data body_bytes token hint xff clientHost).releases = 0) := by
  refine ⟨fun e he => ?_, fun e he => ?_, fun u0 e ha hg => ?_⟩
  · simp [requestPipeline, he]
  · cases hp : (parse_book_input parseJson form_data body_bytes).result with
    | error e2 => simp [requestPipeline, hp]
    | ok doc => simp [requestPipeline, hp, he]
  · cases hp : (parse_book_input parseJson form_data body_bytes).result with
    | error e2 => simp [requestPipeline, hp]
    | ok doc => simp [requestPipeline, hp, ha, hg]

/-- Witness for C8, the spec's end-to-end scenario: providers `okta` and
`azuread` configured, the request omits the `Auth-Provider` header, so
authentication fails with `AmbiguousProvider` and no resource is ever
acquired. -/
theorem pipeline_no_acquire_on_failure_witness :
    (requestPipeline (fun s => Except.ok s) (fun _ => none) ["okta", "azuread"] []
        (fun _ : String => Except.ok ()) (fun _ : Unit => Except.ok ())
        (fun _ _ => Outcome.ok (0 : Nat)) (some "doc") "" "tok" none none
        none).acquires = 0 :=
  ((pipeline_no_acquire_on_failure (fun s => Except.ok s) (fun _ => none)
      ["okta", "azuread"] [] (fun _ : String => Except.ok ()) (fun _ : Unit => Except.ok ())
      (fun _ _ => Outcome.ok (0 : Nat)) (some "doc") "" "tok" none none none).2.1
    AppError.ambiguousProvider (by decide)).1

/-! ## C9: IP-address enrichment -/

theorem takeUntilComma_append (l rest : List Char) (h : ∀ ch ∈ l, ch ≠ ',') :
    takeUntilComma (l ++ ',' :: rest) = l := by
  induction l with
  | nil => simp [takeUntilComma]
  | cons c cs ih =>
    have hc : c ≠ ',' := h c (List.mem_cons_self c cs)
    simp [takeUntilComma, hc, ih (fun ch hch => h ch (List.mem_cons_of_mem c hch))]

/-- C9: the enrichment step is total and deterministic, sets `ip_address` to
the first comma-separated entry (stripped) of `x-forwarded-for` when that
header is present, otherwise to the transport-level peer address, otherwise
to `None`, and mutates no other field of the principal; `get_user` only ever
returns the enriched principal. -/
theorem get_user_ip_enrichment (u : User) (clientHost : Option String) :
    (∀ a rest : String, (∀ ch ∈ a.data, ch ≠ ',') →
      (enrich u (some (a ++ "," ++ rest)) clientHost).ip_address
        = some (String.mk (pyStrip a.data))) ∧
    (enrich u none clientHost).ip_address = clientHost ∧
    (∀ xff : Option String,
      (enrich u xff clientHost).ip_address = extractIp xff clientHost ∧
      (enrich u xff clientHost).id = u.id ∧
      (enrich u xff clientHost).name = u.name ∧
      (enrich u xff clientHost).roles = u.roles ∧
      (enrich u xff clientHost).authorized = u.authorized) ∧
    (∀ providers required xff u2,
      (get_user providers required xff clientHost u).result = Except.ok u2 →
      u2 = enrich u xff clientHost) := by
  refine ⟨fun a rest h => ?_, rfl, fun xff => ⟨rfl, rfl, rfl, rfl, rfl⟩,
    fun providers required xff u2 hres => ?_⟩
  · show some (String.mk (pyStrip (takeUntilComma (a ++ "," ++ rest).data)))
      = some (String.mk (pyStrip a.data))
    have hd : (a ++ "," ++ rest).data = a.data ++ ',' :: rest.data := by
      rw [String.data_append, String.data_append]
      simp
    rw [hd, takeUntilComma_append a.data rest.data h]
  · by_cases hemp : providers.isEmpty = true
    · simp [get_user, hemp] at hres
      exact hres.symm
    · by_cases hrr : has_required_roles (enrich u xff clientHost) required = true
      · by_cases hauth : (enrich u xff clientHost).authorized = true
        · simp [get_user, hemp, hrr, hauth] at hres
          exact hres.symm
        · simp [get_user, hemp, hrr, hauth] at hres
      · simp [get_user, hemp, hrr] at hres

/-- Witness for C9 at a concrete forwarded-for header with two entries. -/
theorem get_user_ip_enrichment_witness :
    (enrich
        { id := "u1", name := "Alice", roles := [], ip_address := none, authorized := true }
        (some ("1.2.3.4" ++ "," ++ " 5.6.7.8")) (some "9.9.9.9")).ip_address
      = some "1.2.3.4" := by
  have h := (get_user_ip_enrichment
      { id := "u1", name := "Alice", roles := [], ip_address := none, authorized := true }
      (some "9.9.9.9")).1 "1.2.3.4" " 5.6.7.8" (by decide)
  exact h.trans (by decide)

end WraSupervision
